import Mathlib

/-!
Shallow embedding of `src/aain_config.py` (AAIN configuration module).

Modelling conventions:
* Python values stored in configuration fields are modelled by `Value`:
  strings, floats (as exact rationals — every literal in the source and in
  the spec's test values compares against 0 and 1 exactly as its float
  counterpart does), and ints.
* Python dicts are modelled as association lists `List (String × Value)`;
  a real dict has pairwise-distinct keys, which theorems state as a
  `Nodup` hypothesis where the claim needs it.
* Exceptions are modelled with `Except PyErr`: `ValueError` (the spec's
  ValidationError) carries the message string of the `raise` statement;
  `TypeError` models both the unexpected-keyword-argument failure of
  `AAINConfig(**data)` and the failure of comparing a non-number with an
  int.
* `hasattr(self.config, key)` in `update_config` is modelled as membership
  of `key` among the declared dataclass field names (`parseField`), the
  only attribute names the spec and claims are concerned with.
* Logging is a side effect with no influence on the data and is not
  modelled.
-/

namespace AAIN

/-- A Python value as it occurs in this module: str, float (exact rational),
or int. -/
inductive Value where
  | str : String → Value
  | rat : ℚ → Value
  | int : ℤ → Value
  deriving DecidableEq, Repr

/-- Python exceptions raised by this module. -/
inductive PyErr where
  | valueError : String → PyErr
  | typeError : String → PyErr
  deriving DecidableEq, Repr

instance {ε α : Type} [DecidableEq ε] [DecidableEq α] : DecidableEq (Except ε α) :=
  fun a b =>
    match a, b with
    | .error e, .error e' =>
      if h : e = e' then .isTrue (by rw [h]) else .isFalse (by simp [h])
    | .error _, .ok _ => .isFalse (by simp)
    | .ok _, .error _ => .isFalse (by simp)
    | .ok u, .ok u' =>
      if h : u = u' then .isTrue (by rw [h]) else .isFalse (by simp [h])

/-- `True` for values Python compares against `0` and `1` without a
`TypeError`. -/
def Value.isNum : Value → Bool
  | .str _ => false
  | .rat _ => true
  | .int _ => true

/-- The value lies in the interval (0, 1] (false for non-numbers). -/
def Value.inUnit : Value → Bool
  | .str _ => false
  | .rat q => decide (0 < q ∧ q ≤ 1)
  | .int n => decide (0 < n ∧ n ≤ 1)

/-- Models the Python expression `v <= 0 or v > 1`: a Bool for numbers,
a `TypeError` for a str operand. -/
def cmpOutOfRange : Value → Except PyErr Bool
  | .rat q => .ok (decide (q ≤ 0) || decide (1 < q))
  | .int n => .ok (decide (n ≤ 0) || decide (1 < n))
  | .str _ => .error (.typeError "comparison not supported between str and int")

/-- The `AAINConfig` dataclass: fifteen declared fields, in source order. -/
structure AAINConfig where
  firestore_project_id : Value
  firestore_collection : Value
  rl_learning_rate : Value
  rl_discount_factor : Value
  rl_exploration_rate : Value
  rl_batch_size : Value
  rl_memory_capacity : Value
  health_check_interval : Value
  metrics_aggregation_window : Value
  performance_threshold : Value
  max_connection_pool : Value
  min_throughput : Value
  max_latency : Value
  ml_model_path : Value
  retrain_interval : Value
  deriving DecidableEq, Repr

/-- The declared field names, as an enumeration. -/
inductive FieldName where
  | firestore_project_id
  | firestore_collection
  | rl_learning_rate
  | rl_discount_factor
  | rl_exploration_rate
  | rl_batch_size
  | rl_memory_capacity
  | health_check_interval
  | metrics_aggregation_window
  | performance_threshold
  | max_connection_pool
  | min_throughput
  | max_latency
  | ml_model_path
  | retrain_interval
  deriving DecidableEq, Repr

/-- The string name of a declared field, as in the source. -/
def fieldStr : FieldName → String
  | .firestore_project_id => "firestore_project_id"
  | .firestore_collection => "firestore_collection"
  | .rl_learning_rate => "rl_learning_rate"
  | .rl_discount_factor => "rl_discount_factor"
  | .rl_exploration_rate => "rl_exploration_rate"
  | .rl_batch_size => "rl_batch_size"
  | .rl_memory_capacity => "rl_memory_capacity"
  | .health_check_interval => "health_check_interval"
  | .metrics_aggregation_window => "metrics_aggregation_window"
  | .performance_threshold => "performance_threshold"
  | .max_connection_pool => "max_connection_pool"
  | .min_throughput => "min_throughput"
  | .max_latency => "max_latency"
  | .ml_model_path => "ml_model_path"
  | .retrain_interval => "retrain_interval"

/-- All declared fields, in declaration order. -/
def allFields : List FieldName :=
  [.firestore_project_id, .firestore_collection,
   .rl_learning_rate, .rl_discount_factor, .rl_exploration_rate,
   .rl_batch_size, .rl_memory_capacity,
   .health_check_interval, .metrics_aggregation_window, .performance_threshold,
   .max_connection_pool, .min_throughput, .max_latency,
   .ml_model_path, .retrain_interval]

/-- Resolve an update/constructor key to a declared field
(`hasattr` membership / `__init__` keyword lookup). -/
def parseField (s : String) : Option FieldName :=
  allFields.find? (fun f => fieldStr f = s)

/-- Read a field by name (`getattr`). -/
def getF (c : AAINConfig) : FieldName → Value
  | .firestore_project_id => c.firestore_project_id
  | .firestore_collection => c.firestore_collection
  | .rl_learning_rate => c.rl_learning_rate
  | .rl_discount_factor => c.rl_discount_factor
  | .rl_exploration_rate => c.rl_exploration_rate
  | .rl_batch_size => c.rl_batch_size
  | .rl_memory_capacity => c.rl_memory_capacity
  | .health_check_interval => c.health_check_interval
  | .metrics_aggregation_window => c.metrics_aggregation_window
  | .performance_threshold => c.performance_threshold
  | .max_connection_pool => c.max_connection_pool
  | .min_throughput => c.min_throughput
  | .max_latency => c.max_latency
  | .ml_model_path => c.ml_model_path
  | .retrain_interval => c.retrain_interval

/-- Write a field by name (`setattr`). -/
def setF (c : AAINConfig) : FieldName → Value → AAINConfig
  | .firestore_project_id, v => { c with firestore_project_id := v }
  | .firestore_collection, v => { c with firestore_collection := v }
  | .rl_learning_rate, v => { c with rl_learning_rate := v }
  | .rl_discount_factor, v => { c with rl_discount_factor := v }
  | .rl_exploration_rate, v => { c with rl_exploration_rate := v }
  | .rl_batch_size, v => { c with rl_batch_size := v }
  | .rl_memory_capacity, v => { c with rl_memory_capacity := v }
  | .health_check_interval, v => { c with health_check_interval := v }
  | .metrics_aggregation_window, v => { c with metrics_aggregation_window := v }
  | .performance_threshold, v => { c with performance_threshold := v }
  | .max_connection_pool, v => { c with max_connection_pool := v }
  | .min_throughput, v => { c with min_throughput := v }
  | .max_latency, v => { c with max_latency := v }
  | .ml_model_path, v => { c with ml_model_path := v }
  | .retrain_interval, v => { c with retrain_interval := v }

/-- The declared defaults of `AAINConfig`. `env` is the value of the
`FIRESTORE_PROJECT_ID` environment variable read by `os.getenv` at class
definition time. -/
def defaultConfig (env : Option String) : AAINConfig where
  firestore_project_id := .str (env.getD "evolution-ecosystem")
  firestore_collection := .str "aain_integrations"
  rl_learning_rate := .rat (mkRat 1 1000)
  rl_discount_factor := .rat (mkRat 19 20)
  rl_exploration_rate := .rat (mkRat 1 10)
  rl_batch_size := .int 32
  rl_memory_capacity := .int 10000
  health_check_interval := .int 30
  metrics_aggregation_window := .int 300
  performance_threshold := .rat (mkRat 4 5)
  max_connection_pool := .int 100
  min_throughput := .rat 100
  max_latency := .rat 2
  ml_model_path := .str "models/integration_predictor.pkl"
  retrain_interval := .int 86400

/-- `AAINConfig.to_dict` (via `dataclasses.asdict`): every declared field
with its current value, in declaration order. -/
def to_dict (c : AAINConfig) : List (String × Value) :=
  [("firestore_project_id", c.firestore_project_id),
   ("firestore_collection", c.firestore_collection),
   ("rl_learning_rate", c.rl_learning_rate),
   ("rl_discount_factor", c.rl_discount_factor),
   ("rl_exploration_rate", c.rl_exploration_rate),
   ("rl_batch_size", c.rl_batch_size),
   ("rl_memory_capacity", c.rl_memory_capacity),
   ("health_check_interval", c.health_check_interval),
   ("metrics_aggregation_window", c.metrics_aggregation_window),
   ("performance_threshold", c.performance_threshold),
   ("max_connection_pool", c.max_connection_pool),
   ("min_throughput", c.min_throughput),
   ("max_latency", c.max_latency),
   ("ml_model_path", c.ml_model_path),
   ("retrain_interval", c.retrain_interval)]

/-- One step of applying an update entry: a recognized key is written
through `setattr`; an unrecognized key is skipped (the source logs a
warning there). -/
def applyStep (c : AAINConfig) (kv : String × Value) : AAINConfig :=
  match parseField kv.1 with
  | some f => setF c f kv.2
  | none => c

/-- The update loop of `ConfigManager.update_config`, before re-validation. -/
def applyUpdates (c : AAINConfig) (updates : List (String × Value)) : AAINConfig :=
  updates.foldl applyStep c

/-- `AAINConfig.from_dict`, i.e. `cls(**data)`: every key must name a
declared field (otherwise Python raises a `TypeError` for an unexpected
keyword argument); named fields take the supplied values, absent fields
take the declared defaults. -/
def from_dict (env : Option String) (data : List (String × Value)) :
    Except PyErr AAINConfig :=
  if data.all (fun kv => (parseField kv.1).isSome) then
    .ok (applyUpdates (defaultConfig env) data)
  else
    .error (.typeError "unexpected keyword argument")

/-- `ConfigManager._validate_config`: checks learning rate, discount
factor, performance threshold, in that order, raising `ValueError` with
the source's message at the first out-of-range field. -/
def validate_config (c : AAINConfig) : Except PyErr Unit :=
  match cmpOutOfRange c.rl_learning_rate with
  | .error e => .error e
  | .ok true => .error (.valueError "RL learning rate must be between 0 and 1")
  | .ok false =>
    match cmpOutOfRange c.rl_discount_factor with
    | .error e => .error e
    | .ok true => .error (.valueError "RL discount factor must be between 0 and 1")
    | .ok false =>
      match cmpOutOfRange c.performance_threshold with
      | .error e => .error e
      | .ok true => .error (.valueError "Performance threshold must be between 0 and 1")
      | .ok false => .ok ()

/-- `ConfigManager.update_config`: apply every recognized key in order,
then validate the whole record once. Returns the record as mutated
(retained even when validation fails — no rollback) together with the
outcome of the validation. -/
def update_config (c : AAINConfig) (updates : List (String × Value)) :
    AAINConfig × Except PyErr Unit :=
  let res := applyUpdates c updates
  (res, validate_config res)

/-- `ConfigManager.__init__`: build the default record, validate it;
construction fails (no manager is produced) when validation fails. -/
def ConfigManager.init (env : Option String) : Except PyErr AAINConfig :=
  match validate_config (defaultConfig env) with
  | .error e => .error e
  | .ok _ => .ok (defaultConfig env)

/-! ### Basic lemmas about field access and key resolution -/

theorem getF_setF (c : AAINConfig) (f f' : FieldName) (v : Value) :
    getF (setF c f v) f' = if f' = f then v else getF c f' := by
  cases f <;> cases f' <;> simp [getF, setF]

theorem parseField_eq_some {s : String} {f : FieldName}
    (h : parseField s = some f) : s = fieldStr f := by
  have := List.find?_some h
  exact (of_decide_eq_true this).symm

theorem parseField_fieldStr (f : FieldName) : parseField (fieldStr f) = some f := by
  cases f <;> rfl

theorem getF_applyUpdates_not_mem (updates : List (String × Value))
    (c : AAINConfig) (f : FieldName)
    (h : ∀ kv ∈ updates, parseField kv.1 ≠ some f) :
    getF (applyUpdates c updates) f = getF c f := by
  induction updates generalizing c with
  | nil => rfl
  | cons kv rest ih =>
    have hstep : getF (applyStep c kv) f = getF c f := by
      unfold applyStep
      cases hp : parseField kv.1 with
      | none => rfl
      | some g =>
        have hg : g ≠ f := by
          intro hgf
          exact h kv (List.mem_cons_self kv rest) (hgf ▸ hp)
        rw [getF_setF]
        simp [Ne.symm hg]
    calc getF (applyUpdates (applyStep c kv) rest) f
        = getF (applyStep c kv) f := ih (applyStep c kv)
          (fun kv' hkv' => h kv' (List.mem_cons_of_mem kv hkv'))
      _ = getF c f := hstep

theorem getF_applyUpdates_mem (updates : List (String × Value))
    (c : AAINConfig) (k : String) (v : Value) (f : FieldName)
    (hnd : (updates.map Prod.fst).Nodup)
    (hmem : (k, v) ∈ updates) (hf : parseField k = some f) :
    getF (applyUpdates c updates) f = v := by
  induction updates generalizing c with
  | nil => exact absurd hmem (List.not_mem_nil _)
  | cons kv rest ih =>
    rw [List.map_cons, List.nodup_cons] at hnd
    rcases List.mem_cons.mp hmem with heq | hrest
    · subst heq
      have hnone : ∀ kv' ∈ rest, parseField kv'.1 ≠ some f := by
        intro kv' hkv' hp
        have h1 : kv'.1 = fieldStr f := parseField_eq_some hp
        have h2 : k = fieldStr f := parseField_eq_some hf
        have hmem' : kv'.1 ∈ rest.map Prod.fst := List.mem_map_of_mem Prod.fst hkv'
        rw [h1, ← h2] at hmem'
        exact hnd.1 hmem'
      show getF (applyUpdates (applyStep c (k, v)) rest) f = v
      rw [getF_applyUpdates_not_mem rest _ f hnone]
      unfold applyStep
      simp only [hf]
      rw [getF_setF]
      simp
    · exact ih (applyStep c kv) hnd.2 hrest

/-! ### Lemmas about validation -/

theorem cmpOutOfRange_of_num {v : Value} (h : v.isNum = true) :
    cmpOutOfRange v = .ok (!v.inUnit) := by
  cases v with
  | str s => simp [Value.isNum] at h
  | rat q =>
    simp only [cmpOutOfRange, Value.inUnit]
    congr 1
    rcases le_or_lt q 0 with h0 | h0
    · simp [h0, not_lt.mpr h0]
    · rcases le_or_lt q 1 with h1 | h1
      · simp [h0, h1, not_le.mpr h0, not_lt.mpr h1]
      · simp [h1, not_le.mpr h0, not_le.mpr h1]
  | int n =>
    simp only [cmpOutOfRange, Value.inUnit]
    congr 1
    rcases le_or_lt n 0 with h0 | h0
    · simp [h0, not_lt.mpr h0]
    · rcases le_or_lt n 1 with h1 | h1
      · simp [h0, h1, not_le.mpr h0, not_lt.mpr h1]
      · simp [h1, not_le.mpr h0, not_le.mpr h1]

theorem validate_config_of_num (c : AAINConfig)
    (h1 : c.rl_learning_rate.isNum = true)
    (h2 : c.rl_discount_factor.isNum = true)
    (h3 : c.performance_threshold.isNum = true) :
    validate_config c =
      if ¬ c.rl_learning_rate.inUnit then
        .error (.valueError "RL learning rate must be between 0 and 1")
      else if ¬ c.rl_discount_factor.inUnit then
        .error (.valueError "RL discount factor must be between 0 and 1")
      else if ¬ c.performance_threshold.inUnit then
        .error (.valueError "Performance threshold must be between 0 and 1")
      else .ok () := by
  unfold validate_config
  rw [cmpOutOfRange_of_num h1, cmpOutOfRange_of_num h2, cmpOutOfRange_of_num h3]
  cases hb1 : c.rl_learning_rate.inUnit <;>
    cases hb2 : c.rl_discount_factor.inUnit <;>
      cases hb3 : c.performance_threshold.inUnit <;> simp

theorem cmpOutOfRange_ok_false_iff (v : Value) :
    cmpOutOfRange v = .ok false ↔ v.inUnit = true := by
  cases v with
  | str s => simp [cmpOutOfRange, Value.inUnit]
  | rat q =>
    simp [cmpOutOfRange, Value.inUnit, not_le, not_lt, and_comm]
  | int n =>
    simp [cmpOutOfRange, Value.inUnit, not_le, not_lt, and_comm]

theorem validate_config_ok_iff (c : AAINConfig) :
    validate_config c = .ok () ↔
      (c.rl_learning_rate.inUnit = true ∧ c.rl_discount_factor.inUnit = true ∧
       c.performance_threshold.inUnit = true) := by
  rw [← cmpOutOfRange_ok_false_iff c.rl_learning_rate,
      ← cmpOutOfRange_ok_false_iff c.rl_discount_factor,
      ← cmpOutOfRange_ok_false_iff c.performance_threshold]
  unfold validate_config
  rcases h1 : cmpOutOfRange c.rl_learning_rate with e | b1
  · simp
  · rcases h2 : cmpOutOfRange c.rl_discount_factor with e | b2
    · cases b1 <;> simp
    · rcases h3 : cmpOutOfRange c.performance_threshold with e | b3
      · cases b1 <;> cases b2 <;> simp
      · cases b1 <;> cases b2 <;> cases b3 <;> simp

theorem cmpOutOfRange_error {v : Value} {e : PyErr} (h : cmpOutOfRange v = .error e) :
    e = .typeError "comparison not supported between str and int" := by
  cases v <;> simp_all [cmpOutOfRange]

theorem validate_config_error_of_bad (c : AAINConfig)
    (h1 : c.rl_learning_rate.isNum = true)
    (h2 : c.rl_discount_factor.isNum = true)
    (h3 : c.performance_threshold.isNum = true)
    (hbad : c.rl_learning_rate.inUnit = false ∨ c.rl_discount_factor.inUnit = false ∨
      c.performance_threshold.inUnit = false) :
    ∃ msg, validate_config c = .error (.valueError msg) := by
  rw [validate_config_of_num c h1 h2 h3]
  cases hb1 : c.rl_learning_rate.inUnit <;>
    cases hb2 : c.rl_discount_factor.inUnit <;>
      cases hb3 : c.performance_threshold.inUnit <;> simp_all

theorem applyUpdates_of_all_unknown (updates : List (String × Value)) (c : AAINConfig)
    (h : ∀ kv ∈ updates, parseField kv.1 = none) :
    applyUpdates c updates = c := by
  induction updates generalizing c with
  | nil => rfl
  | cons kv rest ih =>
    have hstep : applyStep c kv = c := by
      unfold applyStep
      rw [h kv (List.mem_cons_self kv rest)]
    show applyUpdates (applyStep c kv) rest = c
    rw [hstep]
    exact ih c (fun kv' hkv' => h kv' (List.mem_cons_of_mem kv hkv'))

theorem validate_config_congr (c c' : AAINConfig)
    (h1 : c.rl_learning_rate = c'.rl_learning_rate)
    (h2 : c.rl_discount_factor = c'.rl_discount_factor)
    (h3 : c.performance_threshold = c'.performance_threshold) :
    validate_config c = validate_config c' := by
  unfold validate_config
  rw [h1, h2, h3]

/-! ### Claim theorems -/

/-- C1: for every update mapping (distinct keys, numeric values for the
checked fields) containing at least one out-of-range value among learning
rate, discount factor and performance threshold, `update_config` signals a
ValidationError (a `ValueError`) and the returned record is exactly the
partially/fully updated record — every recognized field value that was
applied is retained, with no rollback. In particular, updating
`rl_learning_rate := 2.0` and `rl_discount_factor := 0.5` together leaves
the discount factor at 0.5 and signals the error referencing the learning
rate. -/
theorem C1_update_out_of_range_partial_apply :
    (∀ (c : AAINConfig) (updates : List (String × Value)) (k : String) (v : Value)
      (f : FieldName),
      (updates.map Prod.fst).Nodup →
      (k, v) ∈ updates →
      parseField k = some f →
      (f = .rl_learning_rate ∨ f = .rl_discount_factor ∨ f = .performance_threshold) →
      v.isNum = true → v.inUnit = false →
      (applyUpdates c updates).rl_learning_rate.isNum = true →
      (applyUpdates c updates).rl_discount_factor.isNum = true →
      (applyUpdates c updates).performance_threshold.isNum = true →
      (update_config c updates).1 = applyUpdates c updates ∧
      ∃ msg, (update_config c updates).2 = .error (.valueError msg)) ∧
    ((update_config (defaultConfig none)
        [("rl_learning_rate", Value.rat 2), ("rl_discount_factor", Value.rat (mkRat 1 2))]).1.rl_discount_factor
        = Value.rat (mkRat 1 2) ∧
     (update_config (defaultConfig none)
        [("rl_learning_rate", Value.rat 2), ("rl_discount_factor", Value.rat (mkRat 1 2))]).2
        = .error (.valueError "RL learning rate must be between 0 and 1")) := by
  constructor
  · intro c updates k v f hnd hmem hpf hf hvnum hvbad hn1 hn2 hn3
    refine ⟨rfl, ?_⟩
    have hget : getF (applyUpdates c updates) f = v :=
      getF_applyUpdates_mem updates c k v f hnd hmem hpf
    apply validate_config_error_of_bad _ hn1 hn2 hn3
    rcases hf with rfl | rfl | rfl
    · left
      have : (applyUpdates c updates).rl_learning_rate = v := hget
      rw [this, hvbad]
    · right; left
      have : (applyUpdates c updates).rl_discount_factor = v := hget
      rw [this, hvbad]
    · right; right
      have : (applyUpdates c updates).performance_threshold = v := hget
      rw [this, hvbad]
  · exact ⟨by decide, by decide⟩

/-- C1 witness: the theorem applied to the concrete update
`[rl_learning_rate := 2.0]` on the default record. -/
theorem C1_witness :
    (update_config (defaultConfig none) [("rl_learning_rate", Value.rat 2)]).1
      = applyUpdates (defaultConfig none) [("rl_learning_rate", Value.rat 2)] ∧
    ∃ msg, (update_config (defaultConfig none) [("rl_learning_rate", Value.rat 2)]).2
      = .error (.valueError msg) :=
  C1_update_out_of_range_partial_apply.1 (defaultConfig none)
    [("rl_learning_rate", Value.rat 2)] "rl_learning_rate" (Value.rat 2)
    .rl_learning_rate (by decide) (by decide) (by decide) (by decide)
    (by decide) (by decide) (by decide) (by decide) (by decide)

/-- C2 counterexample: after a call of `update_config` that signalled an
error, the learning rate is 2, which does not lie in (0, 1] — so the
claimed invariant does not hold at every observable point after every
call of update(), error or not. -/
theorem C2_counterexample :
    (update_config (defaultConfig none) [("rl_learning_rate", Value.rat 2)]).2
      = .error (.valueError "RL learning rate must be between 0 and 1") ∧
    (update_config (defaultConfig none) [("rl_learning_rate", Value.rat 2)]).1.rl_learning_rate
      = Value.rat 2 ∧
    Value.inUnit (Value.rat 2) = false := by
  decide

/-- C2 (amended): at every observable point after a construction that
completed and after every call of update() that returned normally, the
record's learning rate, discount factor, and performance threshold each
lie in (0, 1]. (After an update that signalled a ValidationError the
record may hold out-of-range values — the documented partial-apply.) -/
theorem C2_invariant_after_success :
    (∀ (env : Option String) (c₀ : AAINConfig), ConfigManager.init env = .ok c₀ →
      c₀.rl_learning_rate.inUnit = true ∧ c₀.rl_discount_factor.inUnit = true ∧
      c₀.performance_threshold.inUnit = true) ∧
    (∀ (c : AAINConfig) (updates : List (String × Value)),
      (update_config c updates).2 = .ok () →
      ((update_config c updates).1.rl_learning_rate.inUnit = true ∧
       (update_config c updates).1.rl_discount_factor.inUnit = true ∧
       (update_config c updates).1.performance_threshold.inUnit = true)) := by
  constructor
  · intro env c₀ h
    unfold ConfigManager.init at h
    rcases hv : validate_config (defaultConfig env) with e | u
    · rw [hv] at h; simp at h
    · rw [hv] at h
      simp at h
      subst h
      exact (validate_config_ok_iff (defaultConfig env)).mp (by rw [hv])
  · intro c updates h
    exact (validate_config_ok_iff (applyUpdates c updates)).mp h

/-- C2 witness: the amended invariant at the default construction and at a
concrete in-range update. -/
theorem C2_witness :
    ((defaultConfig none).rl_learning_rate.inUnit = true ∧
     (defaultConfig none).rl_discount_factor.inUnit = true ∧
     (defaultConfig none).performance_threshold.inUnit = true) ∧
    ((update_config (defaultConfig none) [("rl_learning_rate", Value.rat (mkRat 1 2))]).1.rl_learning_rate.inUnit = true ∧
     (update_config (defaultConfig none) [("rl_learning_rate", Value.rat (mkRat 1 2))]).1.rl_discount_factor.inUnit = true ∧
     (update_config (defaultConfig none) [("rl_learning_rate", Value.rat (mkRat 1 2))]).1.performance_threshold.inUnit = true) :=
  ⟨C2_invariant_after_success.1 none (defaultConfig none) (by decide),
   C2_invariant_after_success.2 (defaultConfig none)
     [("rl_learning_rate", Value.rat (mkRat 1 2))] (by decide)⟩

/-- C3: validation checks exactly the three fields learning rate, discount
factor, performance threshold against (0, 1], in that fixed order,
signalling a ValidationError whose message names the first out-of-range
field; it reads no other field (so two records agreeing on the three
checked fields validate identically), and any record whose three checked
fields lie in (0, 1] passes validation regardless of all other fields. -/
theorem C3_validate_order_and_fields :
    (∀ c : AAINConfig,
      c.rl_learning_rate.isNum = true → c.rl_discount_factor.isNum = true →
      c.performance_threshold.isNum = true →
      validate_config c =
        if ¬ c.rl_learning_rate.inUnit then
          .error (.valueError "RL learning rate must be between 0 and 1")
        else if ¬ c.rl_discount_factor.inUnit then
          .error (.valueError "RL discount factor must be between 0 and 1")
        else if ¬ c.performance_threshold.inUnit then
          .error (.valueError "Performance threshold must be between 0 and 1")
        else .ok ()) ∧
    (∀ c c' : AAINConfig,
      c.rl_learning_rate = c'.rl_learning_rate →
      c.rl_discount_factor = c'.rl_discount_factor →
      c.performance_threshold = c'.performance_threshold →
      validate_config c = validate_config c') ∧
    (∀ c : AAINConfig,
      c.rl_learning_rate.inUnit = true → c.rl_discount_factor.inUnit = true →
      c.performance_threshold.inUnit = true → validate_config c = .ok ()) :=
  ⟨validate_config_of_num, validate_config_congr,
   fun c h1 h2 h3 => (validate_config_ok_iff c).mpr ⟨h1, h2, h3⟩⟩

/-- C3 witness: on a record whose learning rate is fine but whose discount
factor is 2, validation reports the discount factor (the first
out-of-range field in checking order). -/
theorem C3_witness :
    validate_config { defaultConfig none with rl_discount_factor := Value.rat 2 } =
      if ¬ Value.inUnit { defaultConfig none with rl_discount_factor := Value.rat 2 }.rl_learning_rate then
        .error (.valueError "RL learning rate must be between 0 and 1")
      else if ¬ Value.inUnit { defaultConfig none with rl_discount_factor := Value.rat 2 }.rl_discount_factor then
        .error (.valueError "RL discount factor must be between 0 and 1")
      else if ¬ Value.inUnit { defaultConfig none with rl_discount_factor := Value.rat 2 }.performance_threshold then
        .error (.valueError "Performance threshold must be between 0 and 1")
      else .ok () :=
  C3_validate_order_and_fields.1
    { defaultConfig none with rl_discount_factor := Value.rat 2 }
    (by decide) (by decide) (by decide)

/-- C4: for every mapping (distinct keys) whose keys all name declared
fields, `from_dict` produces a record whose named fields hold the supplied
values and whose remaining fields hold the declared defaults; for every
mapping containing a key that does not name a declared field, `from_dict`
fails (Python raises for the unexpected keyword argument) and no record is
produced. -/
theorem C4_from_dict_keys :
    (∀ (env : Option String) (data : List (String × Value)),
      (data.map Prod.fst).Nodup →
      (∀ kv ∈ data, (parseField kv.1).isSome = true) →
      ∃ r, from_dict env data = .ok r ∧
        (∀ (k : String) (v : Value) (f : FieldName),
          (k, v) ∈ data → parseField k = some f → getF r f = v) ∧
        (∀ f : FieldName, (∀ kv ∈ data, parseField kv.1 ≠ some f) →
          getF r f = getF (defaultConfig env) f)) ∧
    (∀ (env : Option String) (data : List (String × Value)) (kv : String × Value),
      kv ∈ data → parseField kv.1 = none →
      from_dict env data = .error (.typeError "unexpected keyword argument")) := by
  constructor
  · intro env data hnd hkeys
    have hall : data.all (fun kv => (parseField kv.1).isSome) = true :=
      List.all_eq_true.mpr hkeys
    refine ⟨applyUpdates (defaultConfig env) data, ?_, ?_, ?_⟩
    · simp [from_dict, hall]
    · intro k v f hmem hpf
      exact getF_applyUpdates_mem data _ k v f hnd hmem hpf
    · intro f hf
      exact getF_applyUpdates_not_mem data _ f hf
  · intro env data kv hmem hnone
    have hall : data.all (fun kv => (parseField kv.1).isSome) = false := by
      rw [List.all_eq_false]
      exact ⟨kv, hmem, by simp [hnone]⟩
    simp [from_dict, hall]

/-- C4 witness: the theorem at a one-entry mapping with a declared key and
at a one-entry mapping with an undeclared key. -/
theorem C4_witness :
    (∃ r, from_dict none [("rl_batch_size", Value.int 64)] = .ok r ∧
      (∀ (k : String) (v : Value) (f : FieldName),
        (k, v) ∈ [("rl_batch_size", Value.int 64)] → parseField k = some f → getF r f = v) ∧
      (∀ f : FieldName,
        (∀ kv ∈ [("rl_batch_size", Value.int 64)], parseField kv.1 ≠ some f) →
        getF r f = getF (defaultConfig none) f)) ∧
    from_dict none [("nonexistent_field", Value.int 1)]
      = .error (.typeError "unexpected keyword argument") :=
  ⟨C4_from_dict_keys.1 none [("rl_batch_size", Value.int 64)] (by decide) (by decide),
   C4_from_dict_keys.2 none [("nonexistent_field", Value.int 1)]
     ("nonexistent_field", Value.int 1) (by decide) (by decide)⟩

/-- C5: `from_dict (to_dict c)` succeeds and reproduces the record exactly,
and `to_dict` lists every declared field with its current value, in
declaration order, with no extra keys. -/
theorem C5_round_trip (env : Option String) (c : AAINConfig) :
    from_dict env (to_dict c) = .ok c ∧
    to_dict c = allFields.map (fun f => (fieldStr f, getF c f)) := by
  refine ⟨?_, rfl⟩
  cases c
  rfl

/-- C6: an update whose keys all fail to name a declared field, applied to
a manager holding a valid record, leaves every declared field unchanged
and does not raise: each unrecognized key is skipped (with a warning in
the source) without interrupting the processing of the remaining keys. -/
theorem C6_unknown_keys_ignored :
    ∀ (c : AAINConfig) (updates : List (String × Value)),
      validate_config c = .ok () →
      (∀ kv ∈ updates, parseField kv.1 = none) →
      update_config c updates = (c, .ok ()) := by
  intro c updates hval hkeys
  show (applyUpdates c updates, validate_config (applyUpdates c updates)) = (c, .ok ())
  rw [applyUpdates_of_all_unknown updates c hkeys, hval]

/-- C6 witness: the update `{"nonexistent_field": 1}` on a freshly
constructed default record. -/
theorem C6_witness :
    update_config (defaultConfig none) [("nonexistent_field", Value.int 1)]
      = (defaultConfig none, .ok ()) :=
  C6_unknown_keys_ignored (defaultConfig none) [("nonexistent_field", Value.int 1)]
    (by decide) (by decide)

/-- C7: validation of the performance threshold is left-exclusive and
right-inclusive: a record built from a mapping giving the threshold the
value 1.0 passes validation, while the values 0 (the spec writes the int
literal) and 1.5 fail it. -/
theorem C7_threshold_boundary :
    (from_dict none [("performance_threshold", Value.rat 1)]
        = .ok { defaultConfig none with performance_threshold := Value.rat 1 } ∧
     validate_config { defaultConfig none with performance_threshold := Value.rat 1 }
        = .ok ()) ∧
    (from_dict none [("performance_threshold", Value.int 0)]
        = .ok { defaultConfig none with performance_threshold := Value.int 0 } ∧
     validate_config { defaultConfig none with performance_threshold := Value.int 0 }
        = .error (.valueError "Performance threshold must be between 0 and 1")) ∧
    (from_dict none [("performance_threshold", Value.rat (mkRat 3 2))]
        = .ok { defaultConfig none with performance_threshold := Value.rat (mkRat 3 2) } ∧
     validate_config { defaultConfig none with performance_threshold := Value.rat (mkRat 3 2) }
        = .error (.valueError "Performance threshold must be between 0 and 1")) := by
  decide

/-- C8 counterexample: validation failures on the learning rate with two
different attempted values (2 and 3) signal literally identical errors, so
the ValidationError does not carry the attempted value — it is the fixed
message string of the `raise` statement. -/
theorem C8_counterexample :
    validate_config { defaultConfig none with rl_learning_rate := Value.rat 2 }
      = .error (.valueError "RL learning rate must be between 0 and 1") ∧
    validate_config { defaultConfig none with rl_learning_rate := Value.rat 3 }
      = validate_config { defaultConfig none with rl_learning_rate := Value.rat 2 } ∧
    Value.rat 3 ≠ Value.rat 2 := by
  decide

/-- C8 (amended): every ValidationError signalled by validation carries a
fixed message naming the out-of-range field (one of the three messages of
the source), but not the attempted value: failures on the same field with
different attempted values signal identical errors. -/
theorem C8_error_payload :
    (∀ (c : AAINConfig) (msg : String),
      validate_config c = .error (.valueError msg) →
      msg = "RL learning rate must be between 0 and 1" ∨
      msg = "RL discount factor must be between 0 and 1" ∨
      msg = "Performance threshold must be between 0 and 1") ∧
    (∀ (c : AAINConfig) (q q' : ℚ), (q ≤ 0 ∨ 1 < q) → (q' ≤ 0 ∨ 1 < q') →
      validate_config (setF c .rl_learning_rate (.rat q))
        = .error (.valueError "RL learning rate must be between 0 and 1") ∧
      validate_config (setF c .rl_learning_rate (.rat q))
        = validate_config (setF c .rl_learning_rate (.rat q'))) := by
  constructor
  · intro c msg h
    unfold validate_config at h
    rcases h1 : cmpOutOfRange c.rl_learning_rate with e | b1
    · rw [h1] at h
      have he := cmpOutOfRange_error h1
      subst he
      simp at h
    · rw [h1] at h
      cases b1 with
      | true =>
        simp at h
        exact Or.inl h.symm
      | false =>
        rcases h2 : cmpOutOfRange c.rl_discount_factor with e | b2
        · rw [h2] at h
          have he := cmpOutOfRange_error h2
          subst he
          simp at h
        · rw [h2] at h
          cases b2 with
          | true =>
            simp at h
            exact Or.inr (Or.inl h.symm)
          | false =>
            rcases h3 : cmpOutOfRange c.performance_threshold with e | b3
            · rw [h3] at h
              have he := cmpOutOfRange_error h3
              subst he
              simp at h
            · rw [h3] at h
              cases b3 with
              | true =>
                simp at h
                exact Or.inr (Or.inr h.symm)
              | false => simp at h
  · intro c q q' hq hq'
    have hout : ∀ q₀ : ℚ, (q₀ ≤ 0 ∨ 1 < q₀) →
        cmpOutOfRange (Value.rat q₀) = .ok true := by
      intro q₀ h0
      rcases h0 with h0 | h0 <;> simp [cmpOutOfRange, h0]
    have key : ∀ q₀ : ℚ, (q₀ ≤ 0 ∨ 1 < q₀) →
        validate_config (setF c .rl_learning_rate (.rat q₀))
          = .error (.valueError "RL learning rate must be between 0 and 1") := by
      intro q₀ h0
      have hproj : (setF c .rl_learning_rate (.rat q₀)).rl_learning_rate
          = Value.rat q₀ := rfl
      unfold validate_config
      rw [hproj, hout q₀ h0]
    exact ⟨key q hq, (key q hq).trans (key q' hq').symm⟩

/-- C8 witness: the amended statement at the learning-rate values 2 and 3. -/
theorem C8_witness :
    ("RL learning rate must be between 0 and 1"
        = "RL learning rate must be between 0 and 1" ∨
     "RL learning rate must be between 0 and 1"
        = "RL discount factor must be between 0 and 1" ∨
     "RL learning rate must be between 0 and 1"
        = "Performance threshold must be between 0 and 1") ∧
    (validate_config (setF (defaultConfig none) .rl_learning_rate (Value.rat 2))
        = .error (.valueError "RL learning rate must be between 0 and 1") ∧
     validate_config (setF (defaultConfig none) .rl_learning_rate (Value.rat 2))
        = validate_config (setF (defaultConfig none) .rl_learning_rate (Value.rat 3))) :=
  ⟨C8_error_payload.1 { defaultConfig none with rl_learning_rate := Value.rat 2 }
      "RL learning rate must be between 0 and 1" (by decide),
   C8_error_payload.2 (defaultConfig none) 2 3
      (Or.inr (by norm_num)) (Or.inr (by norm_num))⟩

/-- C9: `from_dict` performs no range validation of its own: a mapping
assigning the out-of-range value 2.0 to the learning rate (all keys
declared) yields a record holding that value, with no error signalled. -/
theorem C9_from_dict_no_range_check :
    from_dict none [("rl_learning_rate", Value.rat 2)]
      = .ok { defaultConfig none with rl_learning_rate := Value.rat 2 } ∧
    Value.inUnit (Value.rat 2) = false := by
  decide

/-- C10: an empty update leaves every field of the record unchanged and
still re-runs validation: it succeeds iff the three checked fields all lie
in (0, 1] and otherwise signals a ValidationError — a manager left
invalid by an earlier partially-applied update raises even on an empty
update. (Numeric checked fields assumed; a non-number draws a TypeError
from the comparison instead.) -/
theorem C10_empty_update_revalidates :
    ∀ c : AAINConfig,
      c.rl_learning_rate.isNum = true → c.rl_discount_factor.isNum = true →
      c.performance_threshold.isNum = true →
      (update_config c []).1 = c ∧
      ((update_config c []).2 = .ok () ↔
        (c.rl_learning_rate.inUnit = true ∧ c.rl_discount_factor.inUnit = true ∧
         c.performance_threshold.inUnit = true)) ∧
      (¬(c.rl_learning_rate.inUnit = true ∧ c.rl_discount_factor.inUnit = true ∧
          c.performance_threshold.inUnit = true) →
        ∃ msg, (update_config c []).2 = .error (.valueError msg)) := by
  intro c h1 h2 h3
  have hsnd : (update_config c []).2 = validate_config c := rfl
  refine ⟨rfl, ?_, ?_⟩
  · rw [hsnd]
    exact validate_config_ok_iff c
  · intro hbad
    rw [hsnd]
    apply validate_config_error_of_bad c h1 h2 h3
    simpa only [not_and_or, Bool.not_eq_true] using hbad

/-- C10 witness: the empty update on a record left invalid (learning rate
2) by a partially-applied update: it raises again. -/
theorem C10_witness :
    ((update_config { defaultConfig none with rl_learning_rate := Value.rat 2 } []).1
        = { defaultConfig none with rl_learning_rate := Value.rat 2 }) ∧
    (((update_config { defaultConfig none with rl_learning_rate := Value.rat 2 } []).2
        = .ok ()) ↔
      (Value.inUnit { defaultConfig none with rl_learning_rate := Value.rat 2 }.rl_learning_rate = true ∧
       Value.inUnit { defaultConfig none with rl_learning_rate := Value.rat 2 }.rl_discount_factor = true ∧
       Value.inUnit { defaultConfig none with rl_learning_rate := Value.rat 2 }.performance_threshold = true)) ∧
    (¬(Value.inUnit { defaultConfig none with rl_learning_rate := Value.rat 2 }.rl_learning_rate = true ∧
       Value.inUnit { defaultConfig none with rl_learning_rate := Value.rat 2 }.rl_discount_factor = true ∧
       Value.inUnit { defaultConfig none with rl_learning_rate := Value.rat 2 }.performance_threshold = true) →
      ∃ msg, (update_config { defaultConfig none with rl_learning_rate := Value.rat 2 } []).2
        = .error (.valueError msg)) :=
  C10_empty_update_revalidates
    { defaultConfig none with rl_learning_rate := Value.rat 2 }
    (by decide) (by decide) (by decide)

end AAIN
